import Mathlib

/-!
Verification of the NanoPressure BLE readout tool (src/NanoPressure.py).

The program reads barometric-pressure telemetry from a BLE sensor over GATT.
It has two modes: a live scan mode that prints each pressure notification, and
a download mode that drains the on-device circular buffer of (pressure,
relative-timestamp) samples and reconciles the device clock against local
wall-clock time.

This file shallowly embeds the relevant pieces of the code:
  - byte-level decoding (struct.unpack of little-endian u32 and IEEE-754
    binary32 floats) over Nat and Rat;
  - the history drain loop (NanoPressure.py lines 144-163) as a recursion over
    an oracle list of successive buffered-count reads plus a stream of history
    records;
  - the clock reconciliation and numpy timestamp rewrite (lines 166-182),
    including the dimensionality behaviour of numpy arrays on empty input;
  - the interval configurator arithmetic (lines 106-117);
  - device discovery, RSSI filtering and selection (lines 22-60);
  - the scan-mode shutdown sequence (lines 129-137) as an event trace.

Machine floats are modelled as exact rationals; unsigned 32-bit integers as
Nat with explicit bounds where they matter.
-/

/-- A BLE peripheral as produced by discovery: display name and address
(the fields of the bleak device object the program uses). -/
structure BLEDevice where
  name : String
  address : String
deriving DecidableEq

/-- Advertisement data attached to a discovery result; the program only
consults the received signal strength (rssi, in dB). -/
structure Advertisement where
  rssi : ℤ
deriving DecidableEq

/-- One decoded history record: struct.unpack of an 8-byte payload as a
binary32 pressure (modelled as an exact rational) and an unsigned 32-bit
relative timestamp in milliseconds (line 156 of NanoPressure.py). -/
structure Sample where
  pressure : ℚ
  trel : ℕ
deriving DecidableEq

/-- Little-endian assembly of four bytes into an unsigned 32-bit integer,
the semantics of the Python format string for an unsigned int with the
less-than byte-order mark in struct.unpack (lines 71, 108, 114, 168). -/
def u32le (b0 b1 b2 b3 : ℕ) : ℕ :=
  b0 + 256 * b1 + 65536 * b2 + 16777216 * b3

/-- The history drain loop (NanoPressure.py lines 147-160).

The first argument is the oracle of successive buffered-count reads (each
entry is one result of readCounts, lines 68-73); the second is the stream of
history-characteristic read results, already decoded to Samples.  The code
reads a count c; while c is positive it issues exactly c sequential history
reads, appending each decoded sample to the data list, then re-reads the
count.  The result is the accumulated sample list together with the number of
count reads performed; none models the device becoming unreadable (oracle
exhausted, or fewer history records available than the count promised). -/
def drain : List ℕ → List Sample → Option (List Sample × ℕ)
  | [], _ => none
  | c :: rest, hist =>
    if c = 0 then
      some ([], 1)
    else if hist.length < c then
      none
    else
      match drain rest (hist.drop c) with
      | none => none
      | some (s, r) => some (hist.take c ++ s, r + 1)

/-- Unfolding lemma: a zero count stops the drain at once, ignoring any
further oracle entries, with one count read and no history reads. -/
theorem drain_zero (rest : List ℕ) (hist : List Sample) :
    drain (0 :: rest) hist = some ([], 1) := by
  simp [drain]

/-- Unfolding lemma: a positive count within the stream's length performs a
batch of that many history reads and recurses. -/
theorem drain_pos (c : ℕ) (rest : List ℕ) (hist : List Sample)
    (hc : 0 < c) (hlen : c ≤ hist.length) :
    drain (c :: rest) hist =
      match drain rest (hist.drop c) with
      | none => none
      | some (s, r) => some (hist.take c ++ s, r + 1) := by
  have hc' : ¬ c = 0 := Nat.pos_iff_ne_zero.mp hc
  have hl' : ¬ hist.length < c := not_lt.mpr hlen
  simp [drain, hc', hl']

/-- Helper: the drain conservation law, shared between the claim theorems.
For count reads c₁, ..., cₖ all positive, followed by a zero and then
anything, the drain collects exactly c₁+...+cₖ samples in stream order and
performs k+1 count reads, the last of which observes the zero and stops. -/
theorem drain_eq_of_pos (cs : List ℕ) (junk : List ℕ) (hist : List Sample)
    (hpos : ∀ c ∈ cs, 0 < c) (hlen : cs.sum ≤ hist.length) :
    drain (cs ++ 0 :: junk) hist = some (hist.take cs.sum, cs.length + 1) := by
  induction cs generalizing hist with
  | nil => simp [drain]
  | cons c cs ih =>
    have hc : 0 < c := hpos c (by simp)
    have hsum : c + cs.sum ≤ hist.length := by simpa [List.sum_cons] using hlen
    have hcl : c ≤ hist.length := le_trans (Nat.le_add_right c cs.sum) hsum
    have hrec : drain (cs ++ 0 :: junk) (hist.drop c) =
        some ((hist.drop c).take cs.sum, cs.length + 1) := by
      refine ih (hist.drop c) (fun x hx => hpos x (by simp [hx])) ?_
      have : cs.sum ≤ hist.length - c := by omega
      simpa [List.length_drop] using this
    rw [List.cons_append, drain_pos c (cs ++ 0 :: junk) hist hc hcl, hrec]
    simp [List.sum_cons, List.take_add]

/-- Claim C1: in download mode, for any sequence of count reads
(C1, ..., Ck, 0) with each Ci positive, the drain engine appends exactly
C1+...+Ck decoded samples to the Sample Set (one per sequential history
read, in stream order), performs exactly one extra count read after the
final batch (k+1 count reads in total), observes 0 there, and stops
(whatever the device would answer afterwards is never read). -/
theorem drain_conservation (cs junk : List ℕ) (hist : List Sample)
    (hpos : ∀ c ∈ cs, 0 < c) (hlen : cs.sum ≤ hist.length) :
    drain (cs ++ 0 :: junk) hist = some (hist.take cs.sum, cs.length + 1) :=
  drain_eq_of_pos cs junk hist hpos hlen

/-- Witness for drain_conservation: count reads (2, 1, 0) over a 3-sample
stream collect all three samples with three count reads plus the final one. -/
theorem drain_conservation_witness :
    (∀ c ∈ [2, 1], 0 < c) ∧
      ([2, 1].sum ≤ ([⟨1, 10⟩, ⟨2, 20⟩, ⟨3, 30⟩] : List Sample).length) ∧
      drain ([2, 1] ++ 0 :: []) [⟨1, 10⟩, ⟨2, 20⟩, ⟨3, 30⟩] =
        some (([⟨1, 10⟩, ⟨2, 20⟩, ⟨3, 30⟩] : List Sample).take [2, 1].sum,
              [2, 1].length + 1) :=
  ⟨by decide, by decide,
    drain_conservation [2, 1] [] [⟨1, 10⟩, ⟨2, 20⟩, ⟨3, 30⟩]
      (by decide) (by decide)⟩

/-- Claim C6: restarting the drain engine when the freshly read buffered
count is zero executes no loop body at all: the sample list stays empty (so
no history-characteristic read is issued) and only the single count read
that observed zero is performed. -/
theorem drain_idempotent_zero (rest : List ℕ) (hist : List Sample) :
    drain (0 :: rest) hist = some ([], 1) :=
  drain_zero rest hist

/-- The value of an IEEE-754 binary32 number from its three bit fields
(sign bit, 8-bit biased exponent, 23-bit fraction), as an exact rational.
Infinities and NaNs (biased exponent 255) have no rational value and give
none; an all-zero exponent denotes a subnormal. -/
def float32OfFields (sign e f : ℕ) : Option ℚ :=
  if e = 255 then none
  else
    let mag : ℚ :=
      if e = 0 then ((f : ℚ) / 8388608) * ((2 : ℚ) ^ (126 : ℕ))⁻¹
      else (1 + (f : ℚ) / 8388608) * (2 : ℚ) ^ ((e : ℤ) - 127)
    some (if sign = 0 then mag else -mag)

/-- struct.unpack with format string f on a 4-byte payload, as executed on
the little-endian hosts the tool targets: the bytes are assembled
little-endian into a 32-bit word whose bit fields are interpreted as an
IEEE-754 binary32 number (NanoPressure.py line 65). -/
def structUnpackFloat (b0 b1 b2 b3 : ℕ) : Option ℚ :=
  let n := u32le b0 b1 b2 b3
  float32OfFields (n / 2147483648) (n / 8388608 % 256) (n % 8388608)

/-- The numeric value printed by scanPressureCallback (lines 63-66) for a
4-byte notification payload: the result of struct.unpack applied to the
payload. -/
def scanPressureValue (b0 b1 b2 b3 : ℕ) : Option ℚ :=
  structUnpackFloat b0 b1 b2 b3

/-- The little-endian IEEE-754 binary32 reading of four bytes, written
directly from the byte layout as the spec describes it: the last byte
carries the sign bit and the high seven exponent bits, the third byte the
low exponent bit and the high fraction bits, the first two bytes the low
fraction bits. -/
def ieee754FloatLE (b0 b1 b2 b3 : ℕ) : Option ℚ :=
  float32OfFields (b3 / 128) (b3 % 128 * 2 + b2 / 128)
    (b0 + 256 * b1 + 65536 * (b2 % 128))

/-- Claim C3: for every 4-byte notification payload, the pressure value the
scan-mode handler prints is exactly the little-endian IEEE-754 binary32
interpretation of those bytes. -/
theorem scan_decode_ieee754_le (b0 b1 b2 b3 : ℕ)
    (h0 : b0 < 256) (h1 : b1 < 256) (h2 : b2 < 256) (h3 : b3 < 256) :
    scanPressureValue b0 b1 b2 b3 = ieee754FloatLE b0 b1 b2 b3 := by
  unfold scanPressureValue structUnpackFloat ieee754FloatLE u32le
  have hs : (b0 + 256 * b1 + 65536 * b2 + 16777216 * b3) / 2147483648
      = b3 / 128 := by omega
  have he : (b0 + 256 * b1 + 65536 * b2 + 16777216 * b3) / 8388608 % 256
      = b3 % 128 * 2 + b2 / 128 := by omega
  have hf : (b0 + 256 * b1 + 65536 * b2 + 16777216 * b3) % 8388608
      = b0 + 256 * b1 + 65536 * (b2 % 128) := by omega
  show float32OfFields
      ((b0 + 256 * b1 + 65536 * b2 + 16777216 * b3) / 2147483648)
      ((b0 + 256 * b1 + 65536 * b2 + 16777216 * b3) / 8388608 % 256)
      ((b0 + 256 * b1 + 65536 * b2 + 16777216 * b3) % 8388608)
      = float32OfFields (b3 / 128) (b3 % 128 * 2 + b2 / 128)
          (b0 + 256 * b1 + 65536 * (b2 % 128))
  rw [hs, he, hf]

/-- Witness for scan_decode_ieee754_le at the payload 00 00 80 3F, the
binary32 encoding of 1.0. -/
theorem scan_decode_ieee754_le_witness :
    (0 : ℕ) < 256 ∧ (128 : ℕ) < 256 ∧ (63 : ℕ) < 256 ∧
      scanPressureValue 0 0 128 63 = ieee754FloatLE 0 0 128 63 :=
  ⟨by decide, by decide, by decide,
    scan_decode_ieee754_le 0 0 128 63 (by decide) (by decide) (by decide)
      (by decide)⟩

/-- A numpy ndarray as download mode uses it: np.array of a nonempty list of
pairs is a two-dimensional n-by-2 array, while np.array of the empty list is
a one-dimensional empty array (shape (0,)). -/
inductive NDArray where
  | oneD (xs : List ℚ)
  | twoD (rows : List (ℚ × ℚ))
deriving DecidableEq

/-- np.array applied to the download data list (line 174): each Sample is one
row (pressure, relative-timestamp); the empty list degenerates to a
one-dimensional empty array. -/
def npArray (dataList : List Sample) : NDArray :=
  match dataList with
  | [] => .oneD []
  | _ => .twoD (dataList.map (fun s => (s.pressure, (s.trel : ℚ))))

/-- An in-place update of column 1 of an array, the shape-sensitive part of
the two-dimensional index expression on lines 176 and 178: on a
two-dimensional array it rewrites every row's second entry, on a
one-dimensional array it raises IndexError (too many indices). -/
def mapCol1 (f : ℚ → ℚ) : NDArray → Except String NDArray
  | .oneD _ => .error "IndexError: too many indices for array"
  | .twoD rows => .ok (.twoD (rows.map (fun r => (r.1, f r.2))))

/-- The download-mode post-processing (NanoPressure.py lines 166-182): read
deviceTime as a little-endian u32 of milliseconds and convert to seconds,
take the offset deltaTime from the local wall clock, build the numpy array,
divide column 1 by 1000, add deltaTime to column 1, and return the rows that
np.savetxt would write; any numpy error aborts before the file is opened. -/
def downloadPostProcess (localT : ℚ) (b0 b1 b2 b3 : ℕ)
    (dataList : List Sample) : Except String (List (ℚ × ℚ)) :=
  let deviceTime : ℚ := (u32le b0 b1 b2 b3 : ℚ) / 1000
  let deltaTime : ℚ := localT - deviceTime
  match mapCol1 (fun t => t / 1000) (npArray dataList) with
  | .error e => .error e
  | .ok a =>
    match mapCol1 (fun t => t + deltaTime) a with
    | .error e => .error e
    | .ok (.twoD rows) => .ok rows
    | .ok (.oneD _) => .error "IndexError: too many indices for array"

/-- Download mode end to end (lines 144-182): drain the buffer following the
count-read oracle, then post-process the collected Sample Set.  The result
is none if the transport fails mid-drain, otherwise the outcome of the
post-processing (ok rows means the file gets written with those rows). -/
def downloadRun (countReads : List ℕ) (hist : List Sample) (localT : ℚ)
    (b0 b1 b2 b3 : ℕ) : Option (Except String (List (ℚ × ℚ))) :=
  match drain countReads hist with
  | none => none
  | some (dataList, _) => some (downloadPostProcess localT b0 b1 b2 b3 dataList)

/-- Claim C2: after the drain, the reconciler reads deviceTime once as a
4-byte little-endian unsigned millisecond count, converts it to seconds,
forms offset = localT - deviceTimeSeconds, and rewrites every sample's
timestamp to trel/1000 + offset.  With deviceTime = 1000 ms (bytes
E8 03 00 00) the offset is localT - 1; a sample with relative timestamp
500 ms therefore reconciles to localT - 1 + 1/2, and in general every
sample's column-1 entry becomes trel/1000 + (localT - 1). -/
theorem clock_reconciliation (localT p : ℚ) (samples : List Sample)
    (hne : samples ≠ []) :
    downloadPostProcess localT 232 3 0 0 samples =
        .ok (samples.map (fun s => (s.pressure, (s.trel : ℚ) / 1000 + (localT - 1)))) ∧
      downloadPostProcess localT 232 3 0 0 [⟨p, 500⟩] =
        .ok [(p, localT - 1 + 1 / 2)] := by
  constructor
  · match samples, hne with
    | s :: rest, _ =>
      simp only [downloadPostProcess, npArray, mapCol1, u32le]
      norm_num [List.map_map, Function.comp]
  · simp only [downloadPostProcess, npArray, mapCol1, u32le]
    norm_num
    ring

/-- Witness for clock_reconciliation: local time 2 s, deviceTime 1000 ms and
a single sample at relative 500 ms reconcile to 2 - 1 + 1/2 = 3/2. -/
theorem clock_reconciliation_witness :
    ([⟨3, 500⟩] : List Sample) ≠ [] ∧
      downloadPostProcess 2 232 3 0 0 [⟨3, 500⟩] =
        .ok [((3 : ℚ), 2 - 1 + 1 / 2)] :=
  ⟨by simp, (clock_reconciliation 2 3 [⟨3, 500⟩] (by simp)).2⟩

/-- Claim C10: if the first buffered-count read of download mode returns 0,
the Sample Set is empty when post-processing begins; np.array of the empty
list is a one-dimensional empty array, the two-dimensional column index on
it raises IndexError, and the run therefore ends in an error before any
rows are produced for the output file (no ok outcome is possible). -/
theorem download_empty_buffer_fails (rest : List ℕ) (hist : List Sample)
    (localT : ℚ) (b0 b1 b2 b3 : ℕ) :
    downloadRun (0 :: rest) hist localT b0 b1 b2 b3 =
        some (.error "IndexError: too many indices for array") ∧
      ∀ rows, downloadRun (0 :: rest) hist localT b0 b1 b2 b3 ≠
        some (.ok rows) := by
  have h : downloadRun (0 :: rest) hist localT b0 b1 b2 b3 =
      some (.error "IndexError: too many indices for array") := by
    simp [downloadRun, drain_zero, downloadPostProcess, npArray, mapCol1]
  exact ⟨h, fun rows hrows => by simp [h] at hrows⟩

/-- Witness for download_empty_buffer_fails: a run whose only count read is
0 ends in the IndexError outcome. -/
theorem download_empty_buffer_fails_witness :
    downloadRun [0] [] 0 0 0 0 0 =
      some (.error "IndexError: too many indices for array") :=
  (download_empty_buffer_fails [] [] 0 0 0 0 0).1

/-- The remaining-buffer estimate of the interval configurator
(NanoPressure.py lines 112-117): the current buffered count is read as a
little-endian u32, subtracted from the fixed 16384-slot capacity, and
multiplied by the effective interval, which is the requested interval in
seconds, or 0.1 s when the request is 0 (Python truthiness on the int). -/
def remainingBufferDuration (b0 b1 b2 b3 : ℕ) (interval : ℕ) : ℚ :=
  let currCounts := u32le b0 b1 b2 b3
  let countsLeft : ℤ := 16384 - (currCounts : ℤ)
  let intv : ℚ := if interval ≠ 0 then (interval : ℚ) else 1 / 10
  (countsLeft : ℚ) * intv

/-- Claim C4: the configurator computes (16384 - currentBufferedCount) times
the effective interval, where the effective interval is the request when
nonzero and 0.1 s when the request is 0; in particular a request of 0 with
100 buffered samples yields (16384 - 100) * 0.1 seconds. -/
theorem interval_buffer_duration (b0 b1 b2 b3 interval : ℕ) :
    remainingBufferDuration b0 b1 b2 b3 interval =
        ((16384 : ℚ) - (u32le b0 b1 b2 b3 : ℚ)) *
          (if interval ≠ 0 then (interval : ℚ) else 1 / 10) ∧
      remainingBufferDuration 100 0 0 0 0 = ((16384 : ℚ) - 100) * (1 / 10) := by
  constructor
  · simp only [remainingBufferDuration]
    push_cast
    ring
  · norm_num [remainingBufferDuration, u32le]

/-- The RSSI filter of discoverDevice (NanoPressure.py line 29): keep
exactly the discovery results whose advertised signal strength is strictly
greater than the configured minimum. -/
def rssiFilter (minRssi : ℤ) (devs : List (BLEDevice × Advertisement)) :
    List (BLEDevice × Advertisement) :=
  devs.filter (fun da => decide (minRssi < da.2.rssi))

/-- Claim C5: after interactive-discovery filtering, the remaining
candidates are exactly the advertised devices whose signal strength is
strictly greater than the configured minimum, and in particular no
candidate at or below the minimum is ever returned. -/
theorem rssi_filter_strict (minRssi : ℤ)
    (devs : List (BLEDevice × Advertisement)) :
    (∀ da, da ∈ rssiFilter minRssi devs ↔
        da ∈ devs ∧ minRssi < da.2.rssi) ∧
      ∀ da, da ∈ rssiFilter minRssi devs → ¬ da.2.rssi ≤ minRssi := by
  constructor
  · intro da
    simp [rssiFilter, List.mem_filter]
  · intro da hda
    have h : da ∈ devs ∧ minRssi < da.2.rssi := by
      simpa [rssiFilter, List.mem_filter] using hda
    exact not_le.mpr h.2

/-- Witness for rssi_filter_strict: with threshold -80 dB, a device
advertising at -50 dB passes the filter. -/
theorem rssi_filter_strict_witness :
    (⟨⟨"Nano", "AA:BB"⟩, ⟨-50⟩⟩ : BLEDevice × Advertisement) ∈
      rssiFilter (-80) [⟨⟨"Nano", "AA:BB"⟩, ⟨-50⟩⟩] :=
  ((rssi_filter_strict (-80) [⟨⟨"Nano", "AA:BB"⟩, ⟨-50⟩⟩]).1
      ⟨⟨"Nano", "AA:BB"⟩, ⟨-50⟩⟩).mpr ⟨by simp, by decide⟩

/-- Outcome of device resolution: either a device to connect to, or a fatal
error report (log message plus the process exit code passed to sys.exit). -/
inductive ResolveOutcome where
  | ok (d : BLEDevice)
  | fatal (exitCode : ℕ) (msg : String)
deriving DecidableEq

/-- Result of one resolution attempt, together with how many scans the
attempt performed and whether a selection menu was shown to the user. -/
structure ResolveResult where
  outcome : ResolveOutcome
  scanAttempts : ℕ
  menuShown : Bool
deriving DecidableEq

/-- getDevice (NanoPressure.py lines 52-60): one find-by-address scan,
whose result is the argument; if it produced no device the error is logged
and the process exits with status 1, otherwise the device is returned.  No
second scan is attempted and no menu is involved. -/
def getDevice (address : String) (found : Option BLEDevice) : ResolveResult :=
  match found with
  | none =>
    ⟨.fatal 1 ("Could not find device with address " ++ address), 1, false⟩
  | some d => ⟨.ok d, 1, false⟩

/-- discoverDevice (NanoPressure.py lines 22-50): one discovery scan, whose
result list is the argument; devices at or below the minimum RSSI are
filtered out.  An empty filtered set is fatal (exit status 1) with a
message pointing at the RSSI option; a single survivor is auto-selected
without a menu; otherwise a terminal menu is shown and the user's choice
indexes the filtered list. -/
def discoverDevice (scanResult : List (BLEDevice × Advertisement))
    (minRssi : ℤ) (choice : ℕ) : ResolveResult :=
  match rssiFilter minRssi scanResult with
  | [] =>
    ⟨.fatal 1 "Could not find any devices, check minimum RSSI level (option: --rssi)",
      1, false⟩
  | [da] => ⟨.ok da.1, 1, false⟩
  | das => ⟨.ok ((das.map Prod.fst).getD choice ⟨"", ""⟩), 1, true⟩

/-- Claim C7: device resolution failure is fatal with exit status 1 and no
retry.  If the address lookup times out with no device, getDevice reports
the address in its error and exits 1 after its single scan; if discovery's
RSSI-filtered set is empty, discoverDevice exits 1 after its single scan
with a message that names the RSSI option.  Neither path shows a menu or
scans again. -/
theorem resolution_failure_fatal (address : String)
    (found : Option BLEDevice) (scanResult : List (BLEDevice × Advertisement))
    (minRssi : ℤ) (choice : ℕ) (hf : found = none)
    (he : rssiFilter minRssi scanResult = []) :
    getDevice address found =
        ⟨.fatal 1 ("Could not find device with address " ++ address), 1, false⟩ ∧
      discoverDevice scanResult minRssi choice =
        ⟨.fatal 1 "Could not find any devices, check minimum RSSI level (option: --rssi)",
          1, false⟩ := by
  subst hf
  refine ⟨rfl, ?_⟩
  simp [discoverDevice, he]

/-- Witness for resolution_failure_fatal: an absent address and a scan in
which the only device sits below the -80 dB threshold both end with exit
status 1. -/
theorem resolution_failure_fatal_witness :
    (none : Option BLEDevice) = none ∧
      rssiFilter (-80) [⟨⟨"Nano", "AA:BB"⟩, ⟨-90⟩⟩] = [] ∧
      getDevice "XX" none =
        ⟨.fatal 1 ("Could not find device with address " ++ "XX"), 1, false⟩ ∧
      discoverDevice [⟨⟨"Nano", "AA:BB"⟩, ⟨-90⟩⟩] (-80) 0 =
        ⟨.fatal 1 "Could not find any devices, check minimum RSSI level (option: --rssi)",
          1, false⟩ := by
  refine ⟨rfl, by decide, ?_⟩
  exact resolution_failure_fatal "XX" none [⟨⟨"Nano", "AA:BB"⟩, ⟨-90⟩⟩]
    (-80) 0 rfl (by decide)

/-- Claim C8: when exactly one candidate survives the RSSI filter it is
returned without showing the menu; when several survive, the menu is shown
and the device at the user's chosen index in the filtered list is the one
returned. -/
theorem discover_selection (scanResult : List (BLEDevice × Advertisement))
    (minRssi : ℤ) (choice : ℕ) :
    (∀ da, rssiFilter minRssi scanResult = [da] →
        discoverDevice scanResult minRssi choice = ⟨.ok da.1, 1, false⟩) ∧
      ∀ d, 1 < (rssiFilter minRssi scanResult).length →
        ((rssiFilter minRssi scanResult).map Prod.fst)[choice]? = some d →
        discoverDevice scanResult minRssi choice = ⟨.ok d, 1, true⟩ := by
  constructor
  · intro da h
    simp [discoverDevice, h]
  · intro d hlen hget
    match hfl : rssiFilter minRssi scanResult, hlen with
    | a :: b :: rest, _ =>
      rw [hfl] at hget
      have hgd : ((a :: b :: rest).map Prod.fst)[choice]?.getD
          (⟨"", ""⟩ : BLEDevice) = d := by
        rw [hget]
        rfl
      simp only [discoverDevice, hfl, List.getD_eq_getElem?_getD]
      simpa using hgd

/-- Witness for discover_selection: two candidates above threshold and menu
choice 1 return the second device, with the menu shown. -/
theorem discover_selection_witness :
    (1 < (rssiFilter (-80)
        [⟨⟨"A", "01"⟩, ⟨-40⟩⟩, ⟨⟨"B", "02"⟩, ⟨-50⟩⟩]).length) ∧
      ((rssiFilter (-80)
          [⟨⟨"A", "01"⟩, ⟨-40⟩⟩, ⟨⟨"B", "02"⟩, ⟨-50⟩⟩]).map Prod.fst)[1]? =
        some ⟨"B", "02"⟩ ∧
      discoverDevice [⟨⟨"A", "01"⟩, ⟨-40⟩⟩, ⟨⟨"B", "02"⟩, ⟨-50⟩⟩] (-80) 1 =
        ⟨.ok ⟨"B", "02"⟩, 1, true⟩ :=
  ⟨by decide, by decide,
    (discover_selection [⟨⟨"A", "01"⟩, ⟨-40⟩⟩, ⟨⟨"B", "02"⟩, ⟨-50⟩⟩]
        (-80) 1).2 ⟨"B", "02"⟩ (by decide) (by decide)⟩

/-- The externally visible BLE steps of scan mode, in program order
(NanoPressure.py lines 129-137 plus the scope exit of the client context at
line 96): subscribe to pressure notifications, block on the stop event,
deregister the notification handler, close the session. -/
inductive ScanEvent where
  | startNotify
  | awaitStopEvent
  | stopNotify
  | disconnect
deriving DecidableEq

/-- The conditions that can set the stop event scan mode blocks on.  The
code registers handlers for exactly SIGINT and SIGTERM (lines 134-135); no
timer and no sample counter is ever wired to the event. -/
inductive StopTrigger where
  | sigint
  | sigterm
  | timeout
  | sampleCountLimit
deriving DecidableEq

/-- The straight-line event sequence of scan mode: subscribe, wait for the
stop event, unsubscribe, and only then disconnect on leaving the client
scope. -/
def scanModeEvents : List ScanEvent :=
  [.startNotify, .awaitStopEvent, .stopNotify, .disconnect]

/-- The triggers registered on the stop event by the signal-handler loop. -/
def scanStopTriggers : List StopTrigger :=
  [.sigint, .sigterm]

/-- Claim C9: scan mode ends only on an interrupt or termination signal --
the stop event has exactly SIGINT and SIGTERM wired to it and neither a
timeout nor a sample-count limit -- and the shutdown steps are ordered
wait-for-signal, then stop-notify, then disconnect, each occurring exactly
once in the trace. -/
theorem scan_shutdown_order :
    scanStopTriggers = [.sigint, .sigterm] ∧
      StopTrigger.timeout ∉ scanStopTriggers ∧
      StopTrigger.sampleCountLimit ∉ scanStopTriggers ∧
      scanModeEvents.indexOf .awaitStopEvent <
        scanModeEvents.indexOf .stopNotify ∧
      scanModeEvents.indexOf .stopNotify <
        scanModeEvents.indexOf .disconnect ∧
      scanModeEvents.count .awaitStopEvent = 1 ∧
      scanModeEvents.count .stopNotify = 1 ∧
      scanModeEvents.count .disconnect = 1 := by
  refine ⟨rfl, by decide, by decide, by decide, by decide, by decide,
    by decide, by decide⟩
